import Mathlib

/-!
Shallow embedding of the review-aggregation core of the cafeCompass
repository (`src/backend/src/services/ai-analysis.ts` and the Gemini
summarizer path of the backend processor script), together with theorems
settling the frozen claims about it.

Numbers: all JavaScript numeric arithmetic in the aggregator stays on
small integers and exact decimal fractions, far below any double-precision
rounding, so it is embedded in `ℚ` (averages, sentiment, confidence) and
`ℤ` (rounded ratings).  `Math.round` is embedded as `⌊x + 1/2⌋`, which is
its exact semantics on finite doubles.  `Math.max`/`Math.min` are `max`/`min`.
Strings: `toLowerCase`, `includes`, `substring`, `replace` and `trim` are
embedded as structurally recursive functions on the character list (the
texts involved are ASCII).
-/

/-- Helper: `sub` occurs as a contiguous prefix of some suffix of `s`. -/
def charsInfix (sub s : List Char) : Bool :=
  (List.range (s.length + 1)).any (fun i => sub.isPrefixOf (s.drop i))

/-- JavaScript `s.includes(sub)`: `sub` occurs as a contiguous substring of `s`. -/
def jsIncludes (s sub : String) : Bool :=
  charsInfix sub.toList s.toList

/-- JavaScript `s.toLowerCase()` on the ASCII texts involved: lower-case
every character. -/
def jsToLower (s : String) : String :=
  ⟨s.data.map Char.toLower⟩

/-- JavaScript `s.substring(0, n)` for ASCII texts: the first `n` characters. -/
def jsSubstringTo (s : String) (n : ℕ) : String :=
  ⟨s.data.take n⟩

/-- JavaScript `Math.round`: round half towards positive infinity. -/
def jsRound (q : ℚ) : ℤ :=
  ⌊q + 1 / 2⌋

/-- Entry type of `extracted_attributes` in `ReviewAnalysisResult`
(`ai-analysis.ts` lines 14-50): numeric sub-score, confidence weight,
matched-snippet justification. -/
structure AttrEvidence where
  score : ℚ
  confidence : ℚ
  evidence : String
deriving DecidableEq, Repr

/-- The optional per-attribute sub-scores of `ReviewAnalysisResult.extracted_attributes`
(`ai-analysis.ts` lines 14-50). -/
structure ExtractedAttributes where
  wifi_quality : Option AttrEvidence
  noise_level : Option AttrEvidence
  outlet_availability : Option AttrEvidence
  seating_comfort : Option AttrEvidence
  laptop_friendliness : Option AttrEvidence
  good_for_calls : Option AttrEvidence
  good_for_focus : Option AttrEvidence
deriving DecidableEq, Repr

/-- Record `ReviewAnalysisResult` (`ai-analysis.ts` lines 11-53). -/
structure ReviewAnalysisResult where
  is_work_related : Bool
  work_relevance_score : ℚ
  extracted_attributes : ExtractedAttributes
  sentiment_score : ℚ
  matched_keywords : List String
deriving DecidableEq, Repr

/-- Categorical `wifi_speed` values (`ai-analysis.ts` line 56). -/
inductive WifiSpeed where
  | fast
  | adequate
  | slow
deriving DecidableEq, Repr

/-- Categorical `noise_level` values (`ai-analysis.ts` line 58). -/
inductive NoiseCategory where
  | quiet
  | moderate
  | loud
deriving DecidableEq, Repr

/-- Categorical `laptop_policy` values (`ai-analysis.ts` line 60). -/
inductive LaptopPolicy where
  | encouraged
  | allowed
  | discouraged
deriving DecidableEq, Repr

def WifiSpeed.toStr : WifiSpeed → String
  | .fast => "fast"
  | .adequate => "adequate"
  | .slow => "slow"

def NoiseCategory.toStr : NoiseCategory → String
  | .quiet => "quiet"
  | .moderate => "moderate"
  | .loud => "loud"

/-- Record `CafeScores` (`ai-analysis.ts` lines 55-70).  `best_times_to_work` is a
`Record<string, boolean>`, embedded as an association list. -/
structure CafeScores where
  wifi_speed : WifiSpeed
  outlet_rating : ℤ
  noise_level : NoiseCategory
  seating_rating : ℤ
  laptop_policy : LaptopPolicy
  good_for_calls : Bool
  good_for_focus : Bool
  remote_work_score : ℤ
  work_summary : String
  vibe_tags : List String
  best_times_to_work : List (String × Bool)
  deal_breakers : List String
  ai_confidence_score : ℚ
  work_reviews_count : ℕ
deriving DecidableEq, Repr

/-- Constant `workKeywords` (`ai-analysis.ts` lines 186-190): the fixed work-relevance
vocabulary. -/
def workKeywords : List String :=
  ["wifi", "internet", "laptop", "work", "study", "meeting", "call",
   "quiet", "noise", "outlet", "power", "charging", "focus", "productive",
   "remote", "office", "desk", "table", "seating", "comfortable"]

/-- Constant `positivePhrases` (`ai-analysis.ts` line 203). -/
def positivePhrases : List String :=
  ["great", "excellent", "love", "perfect", "amazing", "good", "nice"]

/-- Constant `negativePhrases` (`ai-analysis.ts` line 204). -/
def negativePhrases : List String :=
  ["bad", "terrible", "awful", "hate", "worst", "poor", "slow"]

/-- Line 193 of `ai-analysis.ts`: keywords of the vocabulary contained in the
lower-cased review text. -/
def matchedKeywordsOf (reviewText : String) : List String :=
  workKeywords.filter (fun keyword => jsIncludes (jsToLower reviewText) keyword)

/-- Line 206 of `ai-analysis.ts`: number of positive phrases contained in the
lower-cased review text. -/
def positiveCountOf (reviewText : String) : ℕ :=
  (positivePhrases.filter (fun phrase => jsIncludes (jsToLower reviewText) phrase)).length

/-- Line 207 of `ai-analysis.ts`: number of negative phrases contained in the
lower-cased review text. -/
def negativeCountOf (reviewText : String) : ℕ :=
  (negativePhrases.filter (fun phrase => jsIncludes (jsToLower reviewText) phrase)).length

/-- Line 208 of `ai-analysis.ts`:
`(positiveCount - negativeCount) / Math.max(positiveCount + negativeCount, 1)`. -/
def sentimentScoreOf (reviewText : String) : ℚ :=
  ((positiveCountOf reviewText : ℚ) - (negativeCountOf reviewText : ℚ)) /
    max ((positiveCountOf reviewText : ℚ) + (negativeCountOf reviewText : ℚ)) 1

/-- Embedding of `analyzeReview` (`ai-analysis.ts` lines 182-262): keyword-based analysis of
one review text. -/
def analyzeReview (reviewText : String) : ReviewAnalysisResult :=
  let text := jsToLower reviewText
  let matchedKeywords := matchedKeywordsOf reviewText
  let isWorkRelated : Bool := decide (matchedKeywords.length ≥ 2)
  let hasWifiMention := jsIncludes text "wifi" || jsIncludes text "internet"
  let hasNoiseMention := jsIncludes text "quiet" || jsIncludes text "loud" ||
    jsIncludes text "noise"
  let hasOutletMention := jsIncludes text "outlet" || jsIncludes text "power" ||
    jsIncludes text "charging"
  let hasLaptopMention := jsIncludes text "laptop" || jsIncludes text "computer" ||
    jsIncludes text "work"
  let evid := jsSubstringTo reviewText 100 ++ "..."
  let wifiAttr : Option AttrEvidence :=
    if isWorkRelated && hasWifiMention then
      some { score := if jsIncludes text "fast" || jsIncludes text "good wifi" then 8
                      else if jsIncludes text "slow" || jsIncludes text "bad wifi" then 3
                      else 6,
             confidence := 7 / 10, evidence := evid }
    else none
  let noiseAttr : Option AttrEvidence :=
    if isWorkRelated && hasNoiseMention then
      some { score := if jsIncludes text "quiet" then 2
                      else if jsIncludes text "loud" then 8
                      else 5,
             confidence := 8 / 10, evidence := evid }
    else none
  let outletAttr : Option AttrEvidence :=
    if isWorkRelated && hasOutletMention then
      some { score := if jsIncludes text "plenty" || jsIncludes text "lots of outlets" then 9
                      else if jsIncludes text "no outlets" || jsIncludes text "few outlets" then 2
                      else 6,
             confidence := 6 / 10, evidence := evid }
    else none
  let laptopAttr : Option AttrEvidence :=
    if isWorkRelated && hasLaptopMention then
      some { score := if jsIncludes text "laptop friendly" || jsIncludes text "welcome laptops" then 9
                      else if jsIncludes text "no laptops" then 1
                      else 7,
             confidence := 7 / 10, evidence := evid }
    else none
  { is_work_related := isWorkRelated,
    work_relevance_score :=
      if isWorkRelated then min ((matchedKeywords.length : ℚ) / 10) 1 else 0,
    extracted_attributes :=
      { wifi_quality := wifiAttr,
        noise_level := noiseAttr,
        outlet_availability := outletAttr,
        seating_comfort := none,
        laptop_friendliness := laptopAttr,
        good_for_calls := none,
        good_for_focus := none },
    sentiment_score := max (-1) (min 1 (sentimentScoreOf reviewText)),
    matched_keywords := matchedKeywords }

/-- Embedding of `calculateAttributeAverage` (`ai-analysis.ts` lines 344-350), with the
attribute key passed as the corresponding field projection. -/
def calculateAttributeAverage (analyses : List ReviewAnalysisResult)
    (attr : ExtractedAttributes → Option AttrEvidence) : ℚ :=
  let relevantAnalyses := analyses.filter
    (fun a => (attr a.extracted_attributes).isSome)
  if relevantAnalyses.length = 0 then 5
  else
    (relevantAnalyses.foldl
        (fun acc a => acc + ((attr a.extracted_attributes).map AttrEvidence.score).getD 0)
        0) / (relevantAnalyses.length : ℚ)

/-- Line 299 of `ai-analysis.ts`: threshold map from the WiFi average to the
categorical WiFi speed. -/
def wifiSpeedOf (avgWifiScore : ℚ) : WifiSpeed :=
  if avgWifiScore ≥ 7 then .fast else if avgWifiScore ≥ 4 then .adequate else .slow

/-- Line 300 of `ai-analysis.ts`: threshold map from the noise average to the
categorical noise level. -/
def noiseLevelOf (avgNoiseScore : ℚ) : NoiseCategory :=
  if avgNoiseScore ≤ 3 then .quiet else if avgNoiseScore ≤ 7 then .moderate else .loud

/-- Line 301 of `ai-analysis.ts`: threshold map from the laptop-friendliness
average to the categorical laptop policy. -/
def laptopPolicyOf (avgLaptopScore : ℚ) : LaptopPolicy :=
  if avgLaptopScore ≥ 7 then .encouraged
  else if avgLaptopScore ≥ 4 then .allowed
  else .discouraged

/-- Embedding of `generateWorkSummary` (`ai-analysis.ts` lines 352-384): deterministic
template summary. -/
def generateWorkSummary (wifiSpeed : WifiSpeed) (noiseLevel : NoiseCategory)
    (laptopPolicy : LaptopPolicy) (remoteWorkScore : ℤ) (workReviewsCount : ℕ) : String :=
  let s1 :=
    if remoteWorkScore ≥ 8 then "Excellent for remote work. "
    else if remoteWorkScore ≥ 6 then "Good for remote work. "
    else if remoteWorkScore ≥ 4 then "Decent for remote work. "
    else "May not be ideal for remote work. "
  let s2 := s1 ++ wifiSpeed.toStr ++ " WiFi, " ++ noiseLevel.toStr ++ " atmosphere. "
  let s3 :=
    if laptopPolicy = .encouraged then s2 ++ "Laptops are welcome. "
    else if laptopPolicy = .discouraged then s2 ++ "Laptops may not be encouraged. "
    else s2
  s3 ++ "Based on " ++ toString workReviewsCount ++ " work-related review" ++
    (if workReviewsCount = 1 then "" else "s") ++ "."

/-- Embedding of `calculateCafeScores` (`ai-analysis.ts` lines 267-342): aggregate the
per-review analyses of one venue into its work-friendliness profile. -/
def calculateCafeScores (analyses : List ReviewAnalysisResult) : CafeScores :=
  let workRelatedAnalyses := analyses.filter (fun a => a.is_work_related)
  let workReviewsCount := workRelatedAnalyses.length
  if workReviewsCount = 0 then
    { wifi_speed := .adequate,
      outlet_rating := 3,
      noise_level := .moderate,
      seating_rating := 3,
      laptop_policy := .allowed,
      good_for_calls := false,
      good_for_focus := false,
      remote_work_score := 5,
      work_summary := "Limited information available for work assessment",
      vibe_tags := ["general"],
      best_times_to_work := [],
      deal_breakers := [],
      ai_confidence_score := 1 / 10,
      work_reviews_count := workReviewsCount }
  else
    let avgWifiScore := calculateAttributeAverage workRelatedAnalyses
      ExtractedAttributes.wifi_quality
    let avgNoiseScore := calculateAttributeAverage workRelatedAnalyses
      ExtractedAttributes.noise_level
    let avgOutletScore := calculateAttributeAverage workRelatedAnalyses
      ExtractedAttributes.outlet_availability
    let avgSeatingScore := calculateAttributeAverage workRelatedAnalyses
      ExtractedAttributes.seating_comfort
    let avgLaptopScore := calculateAttributeAverage workRelatedAnalyses
      ExtractedAttributes.laptop_friendliness
    let wifiSpeed := wifiSpeedOf avgWifiScore
    let noiseLevel := noiseLevelOf avgNoiseScore
    let laptopPolicy := laptopPolicyOf avgLaptopScore
    let remoteWorkScore := jsRound
      ((avgWifiScore * (3 / 10) +
        (10 - avgNoiseScore) * (2 / 10) +
        avgOutletScore * (2 / 10) +
        avgSeatingScore * (15 / 100) +
        avgLaptopScore * (15 / 100)) * (8 / 10))
    let vibeTags :=
      (if avgNoiseScore ≤ 3 then ["quiet"] else []) ++
      (if avgLaptopScore ≥ 7 then ["laptop-friendly"] else []) ++
      (if avgWifiScore ≥ 7 then ["fast-wifi"] else []) ++
      (if avgOutletScore ≥ 7 then ["plenty-of-outlets"] else []) ++
      (if remoteWorkScore ≥ 7 then ["work-friendly"] else [])
    let workSummary := generateWorkSummary wifiSpeed noiseLevel laptopPolicy
      remoteWorkScore workReviewsCount
    { wifi_speed := wifiSpeed,
      outlet_rating := max 1 (min 5 (jsRound (avgOutletScore / 2))),
      noise_level := noiseLevel,
      seating_rating := max 1 (min 5 (jsRound (avgSeatingScore / 2))),
      laptop_policy := laptopPolicy,
      good_for_calls := decide (avgNoiseScore ≤ 4),
      good_for_focus := decide (avgNoiseScore ≤ 3 ∧ avgWifiScore ≥ 6),
      remote_work_score := max 0 (min 10 remoteWorkScore),
      work_summary := workSummary,
      vibe_tags := vibeTags,
      best_times_to_work := [],
      deal_breakers := if avgWifiScore ≤ 3 then ["slow wifi"] else [],
      ai_confidence_score := min 1 ((workReviewsCount : ℚ) / 10),
      work_reviews_count := workReviewsCount }

/-- One full aggregation pass over the review texts of a venue
(`analyzeCafe` lines 126-138: analyze each review, then aggregate). -/
def aggregationPass (reviewTexts : List String) : CafeScores :=
  calculateCafeScores (reviewTexts.map analyzeReview)

/-- Status values an audit record can carry when it is written
(`ai-analysis.ts` lines 141-175; the initial `'processing'` value is always
overwritten before the log call of either path). -/
inductive RunStatus where
  | completed
  | failed
deriving DecidableEq, Repr

/-- Audit-record fields relevant to the claims (`AIAnalysisLog`): the final
status and the measured processing duration. -/
structure AuditRecord where
  status : RunStatus
  processing_time_ms : ℕ
deriving DecidableEq, Repr

/-- Externally visible outcome of one `analyzeCafe` run: the audit records
appended by `logAIAnalysis` and the profile written by `updateCafeScores`. -/
structure AnalyzeCafeOutcome where
  auditRecords : List AuditRecord
  scoresWritten : Option CafeScores
deriving DecidableEq, Repr

/-- Embedding of `analyzeCafe` (`ai-analysis.ts` lines 99-177) with the
database interactions made explicit state: `fetchedReviews` is the result of
`getCafeReviews` (`none` models a fetch that throws), `persistOk` models
whether the database writes inside the `try` block succeed (`false` models a
write that throws and is caught by the `catch` block), and `elapsedMs` is
the wall-clock duration `Date.now() - startTime`.  When the fetch returns
zero reviews the method returns early (lines 117-120) without writing scores
or logging; otherwise exactly one audit record is logged, `'completed'` on
success and `'failed'` from the `catch` block. -/
def analyzeCafe (fetchedReviews : Option (List String)) (persistOk : Bool)
    (elapsedMs : ℕ) : AnalyzeCafeOutcome :=
  match fetchedReviews with
  | none =>
    { auditRecords := [{ status := .failed, processing_time_ms := elapsedMs }],
      scoresWritten := none }
  | some reviews =>
    if reviews.length = 0 then
      { auditRecords := [], scoresWritten := none }
    else if persistOk then
      { auditRecords := [{ status := .completed, processing_time_ms := elapsedMs }],
        scoresWritten := some (aggregationPass reviews) }
    else
      { auditRecords := [{ status := .failed, processing_time_ms := elapsedMs }],
        scoresWritten := none }

/-- Fuel-indexed left-to-right, non-overlapping replacement of every
occurrence of `pattern` by `replacement`, the semantics of a JavaScript
global literal-regex `replace`. -/
def replaceFuel (pattern replacement : List Char) : ℕ → List Char → List Char
  | 0, s => s
  | _ + 1, [] => []
  | fuel + 1, c :: rest =>
    if pattern.isPrefixOf (c :: rest) ∧ pattern ≠ [] then
      replacement ++ replaceFuel pattern replacement fuel ((c :: rest).drop pattern.length)
    else
      c :: replaceFuel pattern replacement fuel rest

/-- JavaScript `s.replace(/pattern/g, replacement)` for a literal pattern. -/
def jsReplaceAll (s pattern replacement : String) : String :=
  ⟨replaceFuel pattern.toList replacement.toList s.toList.length s.toList⟩

/-- JavaScript `s.trim()`. -/
def jsTrim (s : String) : String :=
  ⟨(((s.toList.dropWhile Char.isWhitespace).reverse).dropWhile Char.isWhitespace).reverse⟩

/-- Scores record the Gemini prompt of the backend processor script asks
for (its `AIScores` interface): work score, WiFi quality, noise level,
summary sentence, confidence label, work-related count. -/
structure AIScores where
  work_score : ℚ
  wifi_quality : ℚ
  noise_level : ℚ
  summary : String
  confidence : String
  work_related_count : ℕ
deriving DecidableEq, Repr

/-- Code-fence stripping of `analyzeReviews` (backend processor script,
`src/unnamed/part_010` lines 745-749): the chain
`response.replace(/```json\n?/g, '').replace(/```\n?/g, '').replace(/`/g, '').trim()`,
with each optional-newline regex embedded as removal of the newline-bearing
occurrences followed by the bare ones. -/
def cleanResponse (response : String) : String :=
  jsTrim (jsReplaceAll (jsReplaceAll (jsReplaceAll (jsReplaceAll (jsReplaceAll
    response "```json\n" "") "```json" "") "```\n" "") "```" "") "`" "")

/-- Outcome of the backend processor run: either the parsed scores flow on
to `updateCafeScores`, or an uncaught error reaches the top-level `catch` of
`processCafe`, which prints it and calls `process.exit(1)`. -/
inductive PipelineOutcome where
  | completed (scores : AIScores)
  | processExit (message : String)
deriving DecidableEq, Repr

/-- Embedding of the response handling of `analyzeReviews`
(`src/unnamed/part_010` lines 702-761).  `decode` stands for the JavaScript
builtin `JSON.parse` followed by the unchecked `AIScores` type assertion (an
external primitive, abstracted as a parameter; `none` models a thrown
`SyntaxError`); `responses` is the stream of texts the model would return on
successive attempts.  The source makes exactly one `generateContent` call
and parses its cleaned response exactly once, so only the head of the
stream is consumed, there is no schema validation, and a parse failure
throws out of the function. -/
def analyzeReviews (decode : String → Option AIScores)
    (responses : List String) : Except String AIScores :=
  match responses with
  | [] => .error "no model response"
  | response :: _ =>
    match decode (cleanResponse response) with
    | some scores => .ok scores
    | none => .error "SyntaxError: invalid JSON"

/-- Embedding of the AI-analysis step of `processCafe`
(`src/unnamed/part_010` lines 1057-1137): an error thrown by
`analyzeReviews` reaches the top-level `catch`, which logs the message and
calls `process.exit(1)`, ending the whole processing run. -/
def processCafeAI (decode : String → Option AIScores)
    (responses : List String) : PipelineOutcome :=
  match analyzeReviews decode responses with
  | .ok scores => .completed scores
  | .error msg => .processExit msg

/-- Concrete well-formed scores used to instantiate the C9 theorems. -/
def sampleAIScores : AIScores :=
  { work_score := 4, wifi_quality := 4, noise_level := 2,
    summary := "Good for focused work", confidence := "high",
    work_related_count := 3 }

/-- Concrete stand-in for the abstracted `JSON.parse`: accepts exactly the
cleaned text "OK" and decodes it to `sampleAIScores`. -/
def demoDecode : String → Option AIScores :=
  fun s => if s = "OK" then some sampleAIScores else none

/-! ### Helper lemmas -/

/-- Folding addition of `g` over a list starting from `init` is `init` plus
the sum of the mapped list (the `reduce` of `calculateAttributeAverage`). -/
theorem foldl_add_map {α : Type} (g : α → ℚ) (l : List α) (init : ℚ) :
    l.foldl (fun acc a => acc + g a) init = init + (l.map g).sum := by
  induction l generalizing init with
  | nil => simp
  | cons x xs ih => simp [ih, add_assoc]

/-- A duplicate-free list has at least two elements satisfying `p` exactly
when two distinct members satisfy `p`. -/
theorem two_le_filter_length_iff {α : Type} (p : α → Bool) (l : List α)
    (hl : l.Nodup) :
    2 ≤ (l.filter p).length ↔
      ∃ a b, a ∈ l ∧ b ∈ l ∧ a ≠ b ∧ p a = true ∧ p b = true := by
  constructor
  · intro h
    have hnd : (l.filter p).Nodup := hl.filter p
    rcases hfl : l.filter p with _ | ⟨a, _ | ⟨b, tl⟩⟩
    · rw [hfl] at h; simp at h
    · rw [hfl] at h; simp at h
    · have ha : a ∈ l.filter p := by
        rw [hfl]; exact List.mem_cons_self _ _
      have hb : b ∈ l.filter p := by
        rw [hfl]; exact List.mem_cons_of_mem _ (List.mem_cons_self _ _)
      have hab : a ≠ b := by
        rw [hfl] at hnd
        intro hEq
        subst hEq
        exact (List.nodup_cons.mp hnd).1 (List.mem_cons_self _ _)
      obtain ⟨hal, hpa⟩ := List.mem_filter.mp ha
      obtain ⟨hbl, hpb⟩ := List.mem_filter.mp hb
      exact ⟨a, b, hal, hbl, hab, hpa, hpb⟩
  · rintro ⟨a, b, hal, hbl, hab, hpa, hpb⟩
    have ha : a ∈ l.filter p := List.mem_filter.mpr ⟨hal, hpa⟩
    have hb : b ∈ l.filter p := List.mem_filter.mpr ⟨hbl, hpb⟩
    rcases hfl : l.filter p with _ | ⟨x, _ | ⟨y, tl⟩⟩
    · rw [hfl] at ha; simp at ha
    · rw [hfl] at ha hb
      simp at ha hb
      exact absurd (ha.trans hb.symm) hab
    · simp [List.length_cons]

/-- With zero work-related analyses, `calculateCafeScores` returns the
default profile of `ai-analysis.ts` lines 271-289. -/
theorem calculateCafeScores_of_no_work (analyses : List ReviewAnalysisResult)
    (h : (analyses.filter (fun a => a.is_work_related)).length = 0) :
    calculateCafeScores analyses =
      { wifi_speed := .adequate, outlet_rating := 3, noise_level := .moderate,
        seating_rating := 3, laptop_policy := .allowed, good_for_calls := false,
        good_for_focus := false, remote_work_score := 5,
        work_summary := "Limited information available for work assessment",
        vibe_tags := ["general"], best_times_to_work := [], deal_breakers := [],
        ai_confidence_score := 1 / 10, work_reviews_count := 0 } := by
  simp only [calculateCafeScores, h, if_pos]

/-- With at least one work-related analysis, the categorical fields and the
seating rating of `calculateCafeScores` are the threshold maps of the
attribute averages. -/
theorem calculateCafeScores_of_work_proj (analyses : List ReviewAnalysisResult)
    (h : (analyses.filter (fun a => a.is_work_related)).length ≠ 0) :
    (calculateCafeScores analyses).wifi_speed =
        wifiSpeedOf (calculateAttributeAverage
          (analyses.filter (fun a => a.is_work_related)) ExtractedAttributes.wifi_quality) ∧
      (calculateCafeScores analyses).noise_level =
        noiseLevelOf (calculateAttributeAverage
          (analyses.filter (fun a => a.is_work_related)) ExtractedAttributes.noise_level) ∧
      (calculateCafeScores analyses).laptop_policy =
        laptopPolicyOf (calculateAttributeAverage
          (analyses.filter (fun a => a.is_work_related)) ExtractedAttributes.laptop_friendliness) ∧
      (calculateCafeScores analyses).seating_rating =
        max 1 (min 5 (jsRound (calculateAttributeAverage
          (analyses.filter (fun a => a.is_work_related)) ExtractedAttributes.seating_comfort / 2))) := by
  simp only [calculateCafeScores]
  rw [if_neg h]
  exact ⟨rfl, rfl, rfl, rfl⟩

/-- When no analysis carries the attribute, `calculateAttributeAverage`
returns the default middle score 5 (`ai-analysis.ts` line 346). -/
theorem calculateAttributeAverage_of_none (analyses : List ReviewAnalysisResult)
    (attr : ExtractedAttributes → Option AttrEvidence)
    (h : analyses.filter (fun a => (attr a.extracted_attributes).isSome) = []) :
    calculateAttributeAverage analyses attr = 5 := by
  simp only [calculateAttributeAverage, h, List.length_nil, if_pos]

/-- When some analysis carries the attribute, `calculateAttributeAverage`
is the arithmetic mean of the carried scores (`ai-analysis.ts` lines 348-349). -/
theorem calculateAttributeAverage_of_some (analyses : List ReviewAnalysisResult)
    (attr : ExtractedAttributes → Option AttrEvidence)
    (h : analyses.filter (fun a => (attr a.extracted_attributes).isSome) ≠ []) :
    calculateAttributeAverage analyses attr =
      ((analyses.filter (fun a => (attr a.extracted_attributes).isSome)).map
          (fun a => ((attr a.extracted_attributes).map AttrEvidence.score).getD 0)).sum /
        (((analyses.filter (fun a => (attr a.extracted_attributes).isSome)).length : ℚ)) := by
  have hlen : (analyses.filter (fun a => (attr a.extracted_attributes).isSome)).length ≠ 0 :=
    fun hz => h (List.length_eq_zero.mp hz)
  simp only [calculateAttributeAverage]
  rw [if_neg hlen, foldl_add_map, zero_add]

/-- Bounds on the raw sentiment ratio: for nonnegative counts it already
lies in the interval the clamp of line 214 enforces. -/
theorem sentiment_ratio_bounds (p n : ℚ) (hp : 0 ≤ p) (hn : 0 ≤ n) :
    -1 ≤ (p - n) / max (p + n) 1 ∧ (p - n) / max (p + n) 1 ≤ 1 := by
  have hD : (0 : ℚ) < max (p + n) 1 := lt_of_lt_of_le one_pos (le_max_right _ _)
  have hle : p + n ≤ max (p + n) 1 := le_max_left _ _
  constructor
  · rw [le_div_iff hD]
    linarith
  · rw [div_le_one hD]
    linarith

/-! ### Claim theorems -/

/-- C1: the aggregation (per-review keyword analysis followed by score
calculation) is a pure function of the review texts: running it twice on the
identical review set yields identical categorical outputs, booleans, tags
and numeric sub-scores; the work summary produced here is the deterministic
template of `generateWorkSummary`, and no generative call occurs in this
path. -/
theorem C1_aggregation_deterministic (reviewTexts : List String) :
    aggregationPass reviewTexts = aggregationPass reviewTexts ∧
    reviewTexts.map analyzeReview = reviewTexts.map analyzeReview :=
  ⟨rfl, rfl⟩

/-- C2: a review is marked work-related iff its lower-cased text contains at
least two distinct terms of the fixed work-relevance vocabulary, as
case-insensitive substring matches; hence one term never suffices and two
distinct terms always do. -/
theorem C2_work_related_iff_two_distinct_terms (reviewText : String) :
    (analyzeReview reviewText).is_work_related = true ↔
      ∃ k₁ k₂, k₁ ∈ workKeywords ∧ k₂ ∈ workKeywords ∧ k₁ ≠ k₂ ∧
        jsIncludes (jsToLower reviewText) k₁ = true ∧
        jsIncludes (jsToLower reviewText) k₂ = true := by
  have h1 : (analyzeReview reviewText).is_work_related
      = decide ((matchedKeywordsOf reviewText).length ≥ 2) := rfl
  rw [h1, decide_eq_true_iff]
  exact two_le_filter_length_iff
    (fun keyword => jsIncludes (jsToLower reviewText) keyword) workKeywords (by decide)

/-- C3: the categorical threshold maps — a WiFi average of exactly 7 gives
"fast", 6.99 gives "adequate", 4 gives "adequate", 3.99 gives "slow"; a
noise average at most 3 gives "quiet", at most 7 "moderate", else "loud"; a
laptop average at least 7 gives "encouraged", at least 4 "allowed", else
"discouraged"; and whenever at least one review is work-related, the
profile's categorical fields are exactly these maps applied to the
attribute averages. -/
theorem C3_categorical_thresholds :
    (wifiSpeedOf 7 = WifiSpeed.fast ∧ wifiSpeedOf (699 / 100) = WifiSpeed.adequate ∧
      wifiSpeedOf 4 = WifiSpeed.adequate ∧ wifiSpeedOf (399 / 100) = WifiSpeed.slow) ∧
    (∀ q : ℚ, (q ≤ 3 → noiseLevelOf q = NoiseCategory.quiet) ∧
      (3 < q → q ≤ 7 → noiseLevelOf q = NoiseCategory.moderate) ∧
      (7 < q → noiseLevelOf q = NoiseCategory.loud)) ∧
    (∀ q : ℚ, (7 ≤ q → laptopPolicyOf q = LaptopPolicy.encouraged) ∧
      (4 ≤ q → q < 7 → laptopPolicyOf q = LaptopPolicy.allowed) ∧
      (q < 4 → laptopPolicyOf q = LaptopPolicy.discouraged)) ∧
    (∀ analyses : List ReviewAnalysisResult,
      (analyses.filter (fun a => a.is_work_related)).length ≠ 0 →
      (calculateCafeScores analyses).wifi_speed =
          wifiSpeedOf (calculateAttributeAverage
            (analyses.filter (fun a => a.is_work_related)) ExtractedAttributes.wifi_quality) ∧
        (calculateCafeScores analyses).noise_level =
          noiseLevelOf (calculateAttributeAverage
            (analyses.filter (fun a => a.is_work_related)) ExtractedAttributes.noise_level) ∧
        (calculateCafeScores analyses).laptop_policy =
          laptopPolicyOf (calculateAttributeAverage
            (analyses.filter (fun a => a.is_work_related)) ExtractedAttributes.laptop_friendliness)) := by
  refine ⟨⟨by decide, by norm_num [wifiSpeedOf], by decide, by norm_num [wifiSpeedOf]⟩,
    ?_, ?_, ?_⟩
  · intro q
    refine ⟨fun h => ?_, fun h1 h2 => ?_, fun h => ?_⟩ <;>
      unfold noiseLevelOf <;> split_ifs with e1 e2 <;> first | rfl | (exfalso; linarith)
  · intro q
    refine ⟨fun h => ?_, fun h1 h2 => ?_, fun h => ?_⟩ <;>
      simp only [laptopPolicyOf, ge_iff_le] <;> split_ifs with e1 e2 <;>
        first | rfl | (exfalso; linarith)
  · intro analyses h
    obtain ⟨hw, hn, hl, _⟩ := calculateCafeScores_of_work_proj analyses h
    exact ⟨hw, hn, hl⟩

/-- Witness for C3: concrete instantiations — a noise average of 2 maps to
"quiet", a laptop average of 8 to "encouraged", and a two-review set whose
reviews are both work-related has its categorical WiFi field given by the
threshold map of its WiFi average. -/
theorem C3_categorical_thresholds_witness :
    ((2 : ℚ) ≤ 3 ∧ noiseLevelOf 2 = NoiseCategory.quiet) ∧
    (7 ≤ (8 : ℚ) ∧ laptopPolicyOf 8 = LaptopPolicy.encouraged) ∧
    (((["fast wifi for my laptop", "wifi is ok for laptop use"].map analyzeReview).filter
        (fun a => a.is_work_related)).length ≠ 0 ∧
      (calculateCafeScores
          (["fast wifi for my laptop", "wifi is ok for laptop use"].map analyzeReview)).wifi_speed =
        wifiSpeedOf (calculateAttributeAverage
          ((["fast wifi for my laptop", "wifi is ok for laptop use"].map analyzeReview).filter
            (fun a => a.is_work_related)) ExtractedAttributes.wifi_quality)) :=
  ⟨⟨by decide, (C3_categorical_thresholds.2.1 2).1 (by decide)⟩,
   ⟨by decide, (C3_categorical_thresholds.2.2.1 8).1 (by decide)⟩,
   ⟨by decide, (C3_categorical_thresholds.2.2.2 _ (by decide)).1⟩⟩

/-- C4: for every review, the sentiment score equals
`(positives - negatives) / max (positives + negatives) 1` over the fixed
phrase lists — computed with no work-relatedness condition — it always lies
in `[-1, 1]`, and a review with at least one positive match and no negative
match scores exactly 1. -/
theorem C4_sentiment_formula (reviewText : String) :
    (analyzeReview reviewText).sentiment_score =
      ((positiveCountOf reviewText : ℚ) - (negativeCountOf reviewText : ℚ)) /
        max ((positiveCountOf reviewText : ℚ) + (negativeCountOf reviewText : ℚ)) 1 ∧
    (-1 ≤ (analyzeReview reviewText).sentiment_score ∧
      (analyzeReview reviewText).sentiment_score ≤ 1) ∧
    (1 ≤ positiveCountOf reviewText → negativeCountOf reviewText = 0 →
      (analyzeReview reviewText).sentiment_score = 1) := by
  have hproj : (analyzeReview reviewText).sentiment_score
      = max (-1) (min 1 (sentimentScoreOf reviewText)) := rfl
  have hp : (0 : ℚ) ≤ (positiveCountOf reviewText : ℚ) := Nat.cast_nonneg _
  have hn : (0 : ℚ) ≤ (negativeCountOf reviewText : ℚ) := Nat.cast_nonneg _
  have hb := sentiment_ratio_bounds _ _ hp hn
  have hb1 : -1 ≤ sentimentScoreOf reviewText := hb.1
  have hb2 : sentimentScoreOf reviewText ≤ 1 := hb.2
  have hclamp : max (-1) (min 1 (sentimentScoreOf reviewText))
      = sentimentScoreOf reviewText := by
    rw [min_eq_right hb2, max_eq_right hb1]
  refine ⟨?_, ?_, ?_⟩
  · rw [hproj, hclamp]; rfl
  · rw [hproj, hclamp]; exact ⟨hb1, hb2⟩
  · intro h1 h0
    rw [hproj, hclamp]
    have hformula : sentimentScoreOf reviewText
        = (positiveCountOf reviewText : ℚ) /
          max ((positiveCountOf reviewText : ℚ)) 1 := by
      unfold sentimentScoreOf
      rw [h0]
      norm_num
    have hp1 : (1 : ℚ) ≤ (positiveCountOf reviewText : ℚ) := by exact_mod_cast h1
    rw [hformula, max_eq_left hp1]
    exact div_self (by linarith)

/-- Witness for C4: the review "great coffee" has one positive match, no
negative match, and sentiment exactly 1. -/
theorem C4_sentiment_formula_witness :
    1 ≤ positiveCountOf "great coffee" ∧ negativeCountOf "great coffee" = 0 ∧
      (analyzeReview "great coffee").sentiment_score = 1 :=
  ⟨by decide, by decide,
    (C4_sentiment_formula "great coffee").2.2 (by decide) (by decide)⟩

/-- Counterexample to C5: the one-review set "This place is nice" is
non-empty and has no work-related review, yet its confidence score is the
fixed 0.1 of `ai-analysis.ts` line 286 — not 0 as claimed. -/
theorem C5_counterexample :
    ["This place is nice"].map analyzeReview ≠ [] ∧
    ((["This place is nice"].map analyzeReview).filter
      (fun a => a.is_work_related)).length = 0 ∧
    (calculateCafeScores (["This place is nice"].map analyzeReview)).ai_confidence_score
      = 1 / 10 ∧
    ¬ (calculateCafeScores
        (["This place is nice"].map analyzeReview)).ai_confidence_score = 0 := by
  have h : ((["This place is nice"].map analyzeReview).filter
      (fun a => a.is_work_related)).length = 0 := by decide
  have hrec := calculateCafeScores_of_no_work _ h
  refine ⟨by decide, h, ?_, ?_⟩
  · rw [hrec]
  · rw [hrec]
    norm_num

/-- C5 as amended: for every non-empty review set with no work-related
review, the aggregator produces the default profile rather than an error,
with confidence score 0.1 (the fixed low-confidence constant) and overall
work score 5 out of 10. -/
theorem C5_no_work_default (analyses : List ReviewAnalysisResult)
    (hne : analyses ≠ [])
    (hnw : (analyses.filter (fun a => a.is_work_related)).length = 0) :
    (calculateCafeScores analyses).ai_confidence_score = 1 / 10 ∧
    (calculateCafeScores analyses).remote_work_score = 5 := by
  rw [calculateCafeScores_of_no_work _ hnw]
  exact ⟨rfl, rfl⟩

/-- Witness for C5: the non-empty review set "Lovely pastries here" has no
work-related review and gets confidence 0.1 and work score 5. -/
theorem C5_no_work_default_witness :
    ["Lovely pastries here"].map analyzeReview ≠ [] ∧
    ((["Lovely pastries here"].map analyzeReview).filter
      (fun a => a.is_work_related)).length = 0 ∧
    ((calculateCafeScores
        (["Lovely pastries here"].map analyzeReview)).ai_confidence_score = 1 / 10 ∧
      (calculateCafeScores
        (["Lovely pastries here"].map analyzeReview)).remote_work_score = 5) :=
  ⟨by decide, by decide, C5_no_work_default _ (by decide) (by decide)⟩

/-- Counterexample to C6: on the empty collection the aggregator's default
profile carries confidence 0.1, not the claimed zero confidence. -/
theorem C6_counterexample :
    (calculateCafeScores []).ai_confidence_score = 1 / 10 ∧
    ¬ (calculateCafeScores []).ai_confidence_score = 0 := by
  have hrec := calculateCafeScores_of_no_work [] rfl
  refine ⟨?_, ?_⟩
  · rw [hrec]
  · rw [hrec]
    norm_num

/-- C6 as amended: for an empty review collection the aggregator does not
throw and produces the defined default profile with mid-range categorical
values ("adequate" WiFi, "moderate" noise) and confidence 0.1 (not zero);
`analyzeCafe` itself returns early on an empty fetch, writing no scores and
recording no failure. -/
theorem C6_empty_default :
    calculateCafeScores [] =
      { wifi_speed := .adequate, outlet_rating := 3, noise_level := .moderate,
        seating_rating := 3, laptop_policy := .allowed, good_for_calls := false,
        good_for_focus := false, remote_work_score := 5,
        work_summary := "Limited information available for work assessment",
        vibe_tags := ["general"], best_times_to_work := [], deal_breakers := [],
        ai_confidence_score := 1 / 10, work_reviews_count := 0 } ∧
    analyzeCafe (some []) true 0 = { auditRecords := [], scoresWritten := none } :=
  ⟨calculateCafeScores_of_no_work [] rfl, rfl⟩

/-- C7: for every attribute and review set, the attribute's average over the
work-related analyses is the arithmetic mean of the sub-scores of exactly
those work-related analyses that carry a value for that attribute — an
analysis without the attribute is omitted from the sample, not scored as
zero — and when no analysis carries a value the average is the default
mid-scale 5. -/
theorem C7_attribute_average (analyses : List ReviewAnalysisResult)
    (attr : ExtractedAttributes → Option AttrEvidence) :
    ((analyses.filter (fun a => a.is_work_related)).filter
        (fun a => (attr a.extracted_attributes).isSome) = [] →
      calculateAttributeAverage (analyses.filter (fun a => a.is_work_related)) attr = 5) ∧
    ((analyses.filter (fun a => a.is_work_related)).filter
        (fun a => (attr a.extracted_attributes).isSome) ≠ [] →
      calculateAttributeAverage (analyses.filter (fun a => a.is_work_related)) attr =
        (((analyses.filter (fun a => a.is_work_related)).filter
            (fun a => (attr a.extracted_attributes).isSome)).map
          (fun a => ((attr a.extracted_attributes).map AttrEvidence.score).getD 0)).sum /
        (((analyses.filter (fun a => a.is_work_related)).filter
            (fun a => (attr a.extracted_attributes).isSome)).length : ℚ)) :=
  ⟨fun h => calculateAttributeAverage_of_none _ _ h,
   fun h => calculateAttributeAverage_of_some _ _ h⟩

/-- Witness for C7: on the single work-related review "wifi work", the
seating attribute is carried by no analysis and averages to the default 5,
while the WiFi attribute is carried by the one analysis and averages to the
mean of its carried scores. -/
theorem C7_attribute_average_witness :
    ((["wifi work"].map analyzeReview).filter (fun a => a.is_work_related)).filter
        (fun a => (ExtractedAttributes.seating_comfort a.extracted_attributes).isSome) = [] ∧
    calculateAttributeAverage
      ((["wifi work"].map analyzeReview).filter (fun a => a.is_work_related))
      ExtractedAttributes.seating_comfort = 5 ∧
    ((["wifi work"].map analyzeReview).filter (fun a => a.is_work_related)).filter
        (fun a => (ExtractedAttributes.wifi_quality a.extracted_attributes).isSome) ≠ [] ∧
    calculateAttributeAverage
        ((["wifi work"].map analyzeReview).filter (fun a => a.is_work_related))
        ExtractedAttributes.wifi_quality =
      ((((["wifi work"].map analyzeReview).filter (fun a => a.is_work_related)).filter
          (fun a => (ExtractedAttributes.wifi_quality a.extracted_attributes).isSome)).map
        (fun a => ((ExtractedAttributes.wifi_quality a.extracted_attributes).map
          AttrEvidence.score).getD 0)).sum /
      ((((["wifi work"].map analyzeReview).filter (fun a => a.is_work_related)).filter
          (fun a => (ExtractedAttributes.wifi_quality a.extracted_attributes).isSome)).length : ℚ) :=
  ⟨by decide, (C7_attribute_average _ _).1 (by decide),
   by decide, (C7_attribute_average _ _).2 (by decide)⟩

/-- Counterexample to C8: a run whose review fetch returns zero reviews
completes (it returns early) yet appends no audit record at all, so "every
run appends exactly one audit record" fails. -/
theorem C8_counterexample :
    (analyzeCafe (some []) true 5).auditRecords.length = 0 ∧
    (analyzeCafe (some []) true 5).auditRecords.length ≠ 1 :=
  ⟨by decide, by decide⟩

/-- C8 as amended: every analysis run whose review fetch throws or returns
at least one review appends exactly one audit record, carrying a definite
final status (completed or failed) and the measured processing duration;
only a run that fetches zero reviews returns early and appends none. -/
theorem C8_audit_exactly_one (fetchedReviews : Option (List String))
    (persistOk : Bool) (elapsedMs : ℕ)
    (h : fetchedReviews = none ∨ ∃ r rs, fetchedReviews = some (r :: rs)) :
    (analyzeCafe fetchedReviews persistOk elapsedMs).auditRecords =
        [{ status := RunStatus.completed, processing_time_ms := elapsedMs }] ∨
      (analyzeCafe fetchedReviews persistOk elapsedMs).auditRecords =
        [{ status := RunStatus.failed, processing_time_ms := elapsedMs }] := by
  rcases h with h | ⟨r, rs, h⟩
  · subst h
    right
    rfl
  · subst h
    cases persistOk with
    | true => left; simp [analyzeCafe]
    | false => right; simp [analyzeCafe]

/-- Witness for C8: a run fetching one review with succeeding writes appends
exactly one (completed) audit record with its duration. -/
theorem C8_audit_exactly_one_witness :
    ((some ["good wifi, nice to work"] : Option (List String)) = none ∨
      ∃ r rs, (some ["good wifi, nice to work"] : Option (List String)) = some (r :: rs)) ∧
    ((analyzeCafe (some ["good wifi, nice to work"]) true 42).auditRecords =
        [{ status := RunStatus.completed, processing_time_ms := 42 }] ∨
      (analyzeCafe (some ["good wifi, nice to work"]) true 42).auditRecords =
        [{ status := RunStatus.failed, processing_time_ms := 42 }]) :=
  ⟨Or.inr ⟨_, _, rfl⟩, C8_audit_exactly_one _ _ _ (Or.inr ⟨_, _, rfl⟩)⟩

/-- Counterexample to C9: with a malformed first model response and a
perfectly parseable second one, the summarizer neither validates a schema
nor retries — the single parse fails and the thrown error ends the whole
processing run via process exit, instead of completing with the second
response's scores or a template fallback. -/
theorem C9_counterexample :
    demoDecode (cleanResponse "certainly, here are the scores") = none ∧
    demoDecode (cleanResponse "```json
OK```") = some sampleAIScores ∧
    processCafeAI demoDecode ["certainly, here are the scores", "```json
OK```"] = PipelineOutcome.processExit "SyntaxError: invalid JSON" ∧
    PipelineOutcome.processExit "SyntaxError: invalid JSON" ≠
      PipelineOutcome.completed sampleAIScores :=
  ⟨by decide, by decide, by decide, by decide⟩

/-- C9 as amended: the summarizer response handling strips code-fence
markers and parses exactly once, with no schema validation: when the head
response fails to decode, the run ends in a process exit carrying the parse
error (no retry, no template fallback), and when it decodes, the run
completes with those scores. -/
theorem C9_single_parse_no_retry (decode : String → Option AIScores)
    (response : String) (rest : List String) :
    (decode (cleanResponse response) = none →
      processCafeAI decode (response :: rest) =
        PipelineOutcome.processExit "SyntaxError: invalid JSON") ∧
    (∀ scores, decode (cleanResponse response) = some scores →
      processCafeAI decode (response :: rest) = PipelineOutcome.completed scores) := by
  constructor
  · intro h
    simp [processCafeAI, analyzeReviews, h]
  · intro scores h
    simp [processCafeAI, analyzeReviews, h]

/-- Witness for C9: a single garbage response fails to decode and the run
exits the process with the parse error. -/
theorem C9_single_parse_no_retry_witness :
    demoDecode (cleanResponse "garbage output") = none ∧
    processCafeAI demoDecode ["garbage output"] =
      PipelineOutcome.processExit "SyntaxError: invalid JSON" :=
  ⟨by decide, (C9_single_parse_no_retry demoDecode "garbage output" []).1 (by decide)⟩

/-- C10: the per-review analysis never extracts a seating-comfort attribute,
so for every review set the seating average feeding the overall work score
is the constant default 5 and the profile's seating rating is the constant
3. -/
theorem C10_seating_constant (reviewTexts : List String) :
    (∀ t : String, (analyzeReview t).extracted_attributes.seating_comfort = none) ∧
    calculateAttributeAverage
      ((reviewTexts.map analyzeReview).filter (fun a => a.is_work_related))
      ExtractedAttributes.seating_comfort = 5 ∧
    (calculateCafeScores (reviewTexts.map analyzeReview)).seating_rating = 3 := by
  have hnone : ∀ t : String,
      (analyzeReview t).extracted_attributes.seating_comfort = none := fun t => rfl
  have hrel : ((reviewTexts.map analyzeReview).filter (fun a => a.is_work_related)).filter
      (fun a => (ExtractedAttributes.seating_comfort a.extracted_attributes).isSome) = [] := by
    rw [List.filter_eq_nil_iff]
    intro a ha
    have hmem : a ∈ reviewTexts.map analyzeReview := List.mem_of_mem_filter ha
    obtain ⟨t, _, rfl⟩ := List.mem_map.mp hmem
    simp [hnone t]
  have havg := calculateAttributeAverage_of_none _ ExtractedAttributes.seating_comfort hrel
  refine ⟨hnone, havg, ?_⟩
  by_cases h : ((reviewTexts.map analyzeReview).filter (fun a => a.is_work_related)).length = 0
  · rw [calculateCafeScores_of_no_work _ h]
  · obtain ⟨_, _, _, hsr⟩ := calculateCafeScores_of_work_proj _ h
    rw [hsr, havg]
    have hround : jsRound ((5 : ℚ) / 2) = 3 := by norm_num [jsRound]
    rw [hround]
    decide
